import Mathlib

/-!
Shallow embedding of `src/gpasswd.c` (the gpasswd transactional group-update
engine) and proofs of the specification claims about it.

Modelling conventions:
* The two compile-time switches `SHADOWGRP` and `FIRST_MEMBER_IS_ADMIN` and the
  runtime probe `is_shadowgrp = sgr_file_present ()` are collapsed into two
  boolean parameters `is_shadowgrp` (shadow store in use) and `fma`
  (legacy first-member-is-admin flag), since the non-shadow build behaves like
  the shadow build with `is_shadowgrp = false` for everything modelled here.
* Process exits are values of `ProgExit`, recording which terminal routine ran
  (`usage`, `failure ()`, or a direct `fail_exit`), the exit status, and the
  diagnostics printed on that path.
* The helpers from `lib/list.c` (`is_on_list`, `add_list`, `del_list`,
  `dup_list`, `comma_to_list`) are not part of this repository's `src/`; they
  are modelled from the spec's List Algebra section (spec section 4.3).
-/

set_option autoImplicit false

namespace Gpasswd

/-- A record of the primary group store, `struct group` as used by gpasswd
(the numeric gid is untouched by this program and omitted). -/
structure GroupRecord where
  gr_name : String
  gr_passwd : String
  gr_mem : List String
deriving DecidableEq, Repr

/-- A record of the shadow group store, `struct sgrp`. -/
structure SgrpRecord where
  sg_name : String
  sg_passwd : String
  sg_mem : List String
  sg_adm : List String
deriving DecidableEq, Repr

/-- The `sgrp` value used when the shadow store is not in use: the C code
leaves `*sg` uninitialized and never commits it in that case. -/
def default_sgrp : SgrpRecord := ⟨"", "", [], []⟩

/-- Modelled from the spec: `contains(list, name)` from the List Algebra
(lib/list.c `is_on_list`, not in src): case-sensitive exact membership. -/
def is_on_list (l : List String) (u : String) : Bool :=
  l.contains u

/-- Modelled from the spec: `add(list, name)` (lib/list.c `add_list`, not in
src): appends if absent; no-op if already present. -/
def add_list (l : List String) (u : String) : List String :=
  if is_on_list l u then l else l ++ [u]

/-- Modelled from the spec: `remove(list, name)` (lib/list.c `del_list`, not
in src): removes all occurrences of the name. -/
def del_list (l : List String) (u : String) : List String :=
  l.filter (fun x => x != u)

/-- Modelled from the spec: `parseCommaList` as used for wholesale `replace`
(lib/list.c `comma_to_list`, not in src): splits on commas. -/
def comma_to_list (s : String) : List String :=
  s.splitOn ","

/-- Which terminal routine a fatal path went through: `usage ()`,
`failure ()` (which prints the permission-denied message and calls
`fail_exit (1)`), or a direct `fail_exit`. -/
inductive Routine where
  | usageR
  | failureR
  | failExitR
deriving DecidableEq, Repr

/-- An observable process exit: terminal routine, exit status, and the
diagnostics printed on the way out. -/
structure ProgExit where
  routine : Routine
  status : Nat
  msgs : List String
deriving DecidableEq, Repr

/-- The message printed by `failure ()`. -/
def permissionDeniedMsg : String := "Permission denied."

/-- Diagnostic of `get_group` when the group is missing from the primary
store. -/
def unknownGroupMsg : String := "group does not exist in the group file"

/-- Diagnostic of the `-d` path when the user is on neither member list. -/
def notMemberMsg : String := "user is not a member of the group"

/-- Diagnostic of the `-a` path when the user is missing from the identity
store. -/
def userNotExistMsg : String := "user does not exist"

/-- Diagnostic of `change_passwd` after the third failed confirmation. -/
def tryAgainLaterMsg : String := "Try again later"

/-- Diagnostic of `-A` without a shadow store. -/
def shadowRequiredMsg : String := "shadow group passwords required for -A"

/-- Diagnostic of the password path when stdin/stdout is not a tty. -/
def notATtyMsg : String := "Not a tty"

/-- The exit produced by `failure ()`: it prints the permission-denied
message after any diagnostics already emitted, then calls `fail_exit (1)`. -/
def failure_exit (pre : List String) : ProgExit :=
  ⟨Routine.failureR, 1, pre ++ [permissionDeniedMsg]⟩

/-- The class of an exit at the observable interface: the terminal routine it
went through and the exit status. -/
def exitClass (e : ProgExit) : Routine × Nat :=
  (e.routine, e.status)

/-- Embedding of `check_perms` (gpasswd.c lines 482-553), returning `true`
exactly when the function returns to its caller (the C version calls
`failure ()` instead of returning on denial).  Shadow branch: deny unless
root or listed in `sg_adm`.  Legacy branch with `FIRST_MEMBER_IS_ADMIN`
(`fma`): non-root is denied when the member list is empty or its first entry
is not the caller.  Legacy branch without the flag: non-root always denied. -/
def check_perms (is_shadowgrp fma amroot : Bool) (myname : String)
    (gr : GroupRecord) (sg : SgrpRecord) : Bool :=
  if is_shadowgrp then
    if !amroot && !(is_on_list sg.sg_adm myname) then false else true
  else
    if fma then
      if !amroot then
        match gr.gr_mem with
        | [] => false
        | first :: _ => if !(first == myname) then false else true
      else true
    else
      if !amroot then false else true

/-- The authorization policy exactly as the spec words it (spec section 4.2),
for comparison with `check_perms`: root always allowed; else with a shadow
store allowed iff the caller is on the admin list; else under the legacy flag
allowed iff the caller is the first member; else denied. -/
def authorize_spec (is_shadowgrp fma amroot : Bool) (myname : String)
    (gr : GroupRecord) (sg : SgrpRecord) : Bool :=
  if amroot then true
  else if is_shadowgrp then is_on_list sg.sg_adm myname
  else if fma then gr.gr_mem.head? == some myname
  else false

/-- Environment for `open_files`: whether each lock/open call would
succeed. -/
structure OpenEnv where
  gr_lock_ok : Bool
  sgr_lock_ok : Bool
  gr_open_ok : Bool
  sgr_open_ok : Bool
deriving DecidableEq, Repr

/-- What `fail_exit` (gpasswd.c lines 161-189) does on a fatal path: it calls
`gr_unlock ()` exactly when the `group_locked` flag is set and
`sgr_unlock ()` exactly when the `gshadow_locked` flag is set, then exits
with the given status.  Unlocking is modelled as effective (the C code merely
warns when an unlock call reports failure). -/
structure FailInfo where
  status : Nat
  gr_unlock_called : Bool
  sgr_unlock_called : Bool
deriving DecidableEq, Repr

/-- Build the `FailInfo` for a `fail_exit` call made while the two lock flags
have the given values. -/
def fail_exit_model (group_locked gshadow_locked : Bool) (status : Nat) :
    FailInfo :=
  ⟨status, group_locked, gshadow_locked⟩

/-- Locks still held after a `fail_exit` that entered with the given flags:
every held lock is unlocked, so none remain. -/
def locks_after_fail (group_locked gshadow_locked : Bool) : Bool × Bool :=
  (group_locked && !group_locked, gshadow_locked && !gshadow_locked)

/-- Result of `open_files`: either a fatal exit (recording the `fail_exit`
unlock behaviour, whether `sgr_lock` was ever attempted, and the locks still
held afterwards), or success with both lock flags as set. -/
inductive OFOut where
  | exited (info : FailInfo) (sgr_lock_attempted : Bool)
      (locks_held_after : Bool × Bool)
  | opened (group_locked gshadow_locked : Bool)
deriving DecidableEq, Repr

/-- Embedding of `open_files` (gpasswd.c lines 368-419): lock the group file
(fatal on failure, before any shadow lock); set `group_locked`; if the shadow
store is in use, lock it (fatal on failure, with the group lock released by
`fail_exit`); then open both files, again fatal on failure. -/
def open_files (is_shadowgrp : Bool) (env : OpenEnv) : OFOut :=
  if !env.gr_lock_ok then
    OFOut.exited (fail_exit_model false false 1) false
      (locks_after_fail false false)
  else
    if is_shadowgrp && !env.sgr_lock_ok then
      OFOut.exited (fail_exit_model true false 1) true
        (locks_after_fail true false)
    else
      if !env.gr_open_ok then
        OFOut.exited (fail_exit_model true is_shadowgrp 1) is_shadowgrp
          (locks_after_fail true is_shadowgrp)
      else if is_shadowgrp && !env.sgr_open_ok then
        OFOut.exited (fail_exit_model true is_shadowgrp 1) is_shadowgrp
          (locks_after_fail true is_shadowgrp)
      else
        OFOut.opened true is_shadowgrp

/-- `true` when an `open_files` outcome does not leave exactly one of the two
locks held on an exit path (successful opens are not exit paths). -/
def exit_locks_balanced : OFOut → Bool
  | OFOut.exited _ _ (g, s) => !(g ^^ s)
  | OFOut.opened _ _ => true

/-- Abstract events of one gpasswd run, in program order. -/
inductive Ev where
  | processFlags
  | openGroupRead
  | locateGroup
  | closeGroupRead
  | openShadowRead
  | locateShadow
  | closeShadowRead
  | checkPerms
  | mutate
  | lockGroup
  | lockShadow
  | openGroupWrite
  | openShadowWrite
  | updateGroup
  | updateShadow
  | closeCommit
  | unlockShadow
  | unlockGroup
deriving DecidableEq, BEq, Repr

/-- Events of `get_group` (gpasswd.c lines 596-696): open the group file
read-only, locate the record, close; then the same for the shadow file when
in use. -/
def get_group_events (is_shadowgrp : Bool) : List Ev :=
  [Ev.openGroupRead, Ev.locateGroup, Ev.closeGroupRead] ++
    (if is_shadowgrp then
      [Ev.openShadowRead, Ev.locateShadow, Ev.closeShadowRead]
    else [])

/-- Events of `open_files` (gpasswd.c lines 368-419): lock group, lock shadow
(when in use), then open both for writing. -/
def open_files_events (is_shadowgrp : Bool) : List Ev :=
  [Ev.lockGroup] ++ (if is_shadowgrp then [Ev.lockShadow] else []) ++
    [Ev.openGroupWrite] ++
    (if is_shadowgrp then [Ev.openShadowWrite] else [])

/-- Events of `close_files` (gpasswd.c lines 428-474): commit by closing,
then unlock shadow, then unlock group. -/
def close_files_events (is_shadowgrp : Bool) : List Ev :=
  [Ev.closeCommit] ++ (if is_shadowgrp then [Ev.unlockShadow] else []) ++
    [Ev.unlockGroup]

/-- The event order of `main` (gpasswd.c lines 789-1067): flags are
processed, then `get_group` loads and locates (read-only, unlocked), then
`check_perms` authorizes, then the selected operation mutates the in-memory
records, and only then `open_files` takes the locks, `update_group` writes
back, and `close_files` commits and unlocks.  `mutate` stands for the
rflg/Rflg/aflg/dflg/Aflg/Mflg/password section between `check_perms` and the
`output:` label. -/
def main_events (is_shadowgrp : Bool) : List Ev :=
  [Ev.processFlags] ++ get_group_events is_shadowgrp ++
    [Ev.checkPerms, Ev.mutate] ++ open_files_events is_shadowgrp ++
    [Ev.updateGroup] ++ (if is_shadowgrp then [Ev.updateShadow] else []) ++
    close_files_events is_shadowgrp

/-- Position of the first occurrence of an event in an event list. -/
def ev_index (l : List Ev) (e : Ev) : Nat :=
  l.findIdx (fun x => x == e)

/-- `gr_locate`: exact-name lookup in the primary store. -/
def gr_locate (grdb : List GroupRecord) (name : String) : Option GroupRecord :=
  grdb.find? (fun r => r.gr_name == name)

/-- `sgr_locate`: exact-name lookup in the shadow store. -/
def sgr_locate (sgdb : List SgrpRecord) (name : String) : Option SgrpRecord :=
  sgdb.find? (fun r => r.sg_name == name)

/-- `SHADOW_PASSWD_STRING` from defines.h: the marker left in the primary
password field when the password lives in the shadow store. -/
def SHADOW_PASSWD_STRING : String := "x"

/-- Embedding of `get_group` (gpasswd.c lines 596-696), the data path (the
open/close bookkeeping is covered by the event model).  Locate the group in
the primary store; if absent, print the unknown-group diagnostic and call
`failure ()`.  Otherwise deep-copy the record.  With a shadow store in use,
locate the shadow record; if present copy it, and if absent synthesize one:
name from the requested group, password moved over from the primary record
(which is left holding the shadow marker), member list copied from the
primary record, and admin list defaulting to the first primary member under
`FIRST_MEMBER_IS_ADMIN` and to empty otherwise. -/
def get_group (is_shadowgrp fma : Bool) (grdb : List GroupRecord)
    (sgdb : List SgrpRecord) (group : String) :
    Except ProgExit (GroupRecord × SgrpRecord) :=
  match gr_locate grdb group with
  | none => Except.error (failure_exit [unknownGroupMsg])
  | some tmpgr =>
    if is_shadowgrp then
      match sgr_locate sgdb group with
      | some tmpsg => Except.ok (tmpgr, tmpsg)
      | none =>
        let sg : SgrpRecord :=
          { sg_name := group
            sg_passwd := tmpgr.gr_passwd
            sg_mem := tmpgr.gr_mem
            sg_adm :=
              if fma then
                match tmpgr.gr_mem with
                | m :: _ => [m]
                | [] => []
              else [] }
        Except.ok ({ tmpgr with gr_passwd := SHADOW_PASSWD_STRING }, sg)
    else
      Except.ok (tmpgr, default_sgrp)

/-- One token-scanning step of `is_valid_user_list` (gpasswd.c lines
199-233), mirroring the C loop: characters are accumulated until a comma or
the end of the string; each completed token is clamped to its first 31
characters (`username[32]` with `strncpy`) and looked up in the identity
store; a comma at the very end of the string terminates the loop without
producing a further token.  All tokens are checked and the verdicts are
conjoined (the C code keeps scanning to report every missing user). -/
def is_valid_user_list_go (db : List String) : List Char → List Char → Bool
  | [], acc => db.contains (String.mk (acc.reverse.take 31))
  | c :: rest, acc =>
    if c = ',' then
      match rest with
      | [] => db.contains (String.mk (acc.reverse.take 31))
      | _ :: _ =>
        db.contains (String.mk (acc.reverse.take 31))
          && is_valid_user_list_go db rest []
    else
      is_valid_user_list_go db rest (c :: acc)

/-- Embedding of `is_valid_user_list`: an empty string yields no tokens and
is vacuously valid. -/
def is_valid_user_list (db : List String) (users : String) : Bool :=
  match users.data with
  | [] => true
  | c :: rest => is_valid_user_list_go db (c :: rest) []

/-- The tokens the C loop of `is_valid_user_list` produces, without the
length clamp: same scan, accumulating raw tokens. -/
def ctokens_go : List Char → List Char → List (List Char)
  | [], acc => [acc.reverse]
  | c :: rest, acc =>
    if c = ',' then
      match rest with
      | [] => [acc.reverse]
      | _ :: _ => acc.reverse :: ctokens_go rest []
    else
      ctokens_go rest (c :: acc)

/-- Token list of a comma-separated user list as the C loop scans it. -/
def ctokens (cs : List Char) : List (List Char) :=
  match cs with
  | [] => []
  | c :: rest => ctokens_go (c :: rest) []

/-- The option flags and arguments accumulated by `process_flags`. -/
structure Flags where
  aflg : Bool
  Aflg : Bool
  dflg : Bool
  Mflg : Bool
  rflg : Bool
  Rflg : Bool
  user : String
  members : String
  admins : String
deriving DecidableEq, Repr

/-- All flags clear, as at program start. -/
def Flags.init : Flags := ⟨false, false, false, false, false, false, "", "", ""⟩

/-- A command-line option with its argument, as delivered by getopt. -/
inductive Opt where
  | a (arg : String)
  | A (arg : String)
  | d (arg : String)
  | g
  | M (arg : String)
  | r
  | R
deriving DecidableEq, Repr

/-- `E_USAGE` from exitcodes.h. -/
def E_USAGE : Nat := 2

/-- Embedding of one arm of the `getopt` switch in `process_flags`
(gpasswd.c lines 244-325).  `-a`: the named user must exist in the identity
store, else fatal.  `-A`: non-root callers get `failure ()` before anything
else; then a shadow store is required; then the list must validate.  `-d`:
just records the user, with no identity-store lookup.  `-g`: no-op.  `-M`:
non-root callers get `failure ()` first; then the list must validate.
`-r`/`-R`: record the flag. -/
def process_one (amroot is_shadowgrp : Bool) (db : List String) (fl : Flags) :
    Opt → Except ProgExit Flags
  | Opt.a u =>
    if !(db.contains u) then
      Except.error ⟨Routine.failExitR, 1, [userNotExistMsg]⟩
    else
      Except.ok { fl with aflg := true, user := u }
  | Opt.A s =>
    if !amroot then
      Except.error (failure_exit [])
    else if !is_shadowgrp then
      Except.error ⟨Routine.failExitR, 2, [shadowRequiredMsg]⟩
    else if !(is_valid_user_list db s) then
      Except.error ⟨Routine.failExitR, 1, []⟩
    else
      Except.ok { fl with Aflg := true, admins := s }
  | Opt.d u => Except.ok { fl with dflg := true, user := u }
  | Opt.g => Except.ok fl
  | Opt.M s =>
    if !amroot then
      Except.error (failure_exit [])
    else if !(is_valid_user_list db s) then
      Except.error ⟨Routine.failExitR, 1, []⟩
    else
      Except.ok { fl with Mflg := true, members := s }
  | Opt.r => Except.ok { fl with rflg := true }
  | Opt.R => Except.ok { fl with Rflg := true }

/-- The getopt loop of `process_flags`: options are processed left to right,
stopping at the first fatal one. -/
def process_flags (amroot is_shadowgrp : Bool) (db : List String) :
    List Opt → Flags → Except ProgExit Flags
  | [], fl => Except.ok fl
  | o :: os, fl =>
    match process_one amroot is_shadowgrp db fl o with
    | Except.error e => Except.error e
    | Except.ok fl2 => process_flags amroot is_shadowgrp db os fl2

/-- The number of mutually exclusive operations selected, as counted by
`check_flags` (gpasswd.c lines 330-361). -/
def exclusive_count (fl : Flags) : Nat :=
  (if fl.aflg then 1 else 0) + (if fl.dflg then 1 else 0)
    + (if fl.rflg then 1 else 0) + (if fl.Rflg then 1 else 0)
    + (if fl.Aflg || fl.Mflg then 1 else 0)

/-- Embedding of `check_flags`: more than one exclusive operation is a usage
error. -/
def check_flags (fl : Flags) : Except ProgExit Flags :=
  if exclusive_count fl > 1 then Except.error ⟨Routine.usageR, E_USAGE, []⟩
  else Except.ok fl

/-- One confirmation attempt at the password prompt: the two `getpass`
results (`none` models `getpass` returning NULL). -/
abbrev Attempt := Option String × Option String

/-- Result of the `change_passwd` retry loop. -/
inductive PwResult where
  | accepted (pass : String)
  | nullInput
  | retriesExhausted
deriving DecidableEq, Repr

/-- Embedding of the retry loop of `change_passwd` (gpasswd.c lines
724-758), with fuel counting the remaining iterations of
`for (retries = 0; retries < RETRIES; retries++)` and `RETRIES = 3`.  Each
iteration reads the password twice; a NULL from `getpass` is an immediate
`fail_exit (1)`; matching entries end the loop with the entered password;
mismatching entries are zeroed and the loop continues.  Falling off the end
of the loop is the retries-exhausted failure. -/
def change_passwd_loop : Nat → List Attempt → PwResult
  | 0, _ => PwResult.retriesExhausted
  | _ + 1, [] => PwResult.nullInput
  | fuel + 1, (c1, c2) :: rest =>
    match c1 with
    | none => PwResult.nullInput
    | some p1 =>
      match c2 with
      | none => PwResult.nullInput
      | some p2 =>
        if p1 = p2 then PwResult.accepted p1
        else change_passwd_loop fuel rest

/-- The contents of the two password buffers (the static `pass` buffer and
`getpass`'s buffer) at the entry of each retry iteration, and at loop exit
when the retries are exhausted.  Within an iteration the buffers hold the
entered secrets transiently; on a mismatch `strzero (cp)` and
`memzero (pass, sizeof pass)` clear both before the next iteration, which is
what this trace records. -/
def change_passwd_bufpairs : Nat → List Attempt → String × String →
    List (String × String)
  | 0, _, st => [st]
  | _ + 1, [], st => [st]
  | fuel + 1, (c1, c2) :: rest, st =>
    st ::
      (match c1 with
      | none => []
      | some p1 =>
        match c2 with
        | none => []
        | some p2 =>
          if p1 = p2 then []
          else change_passwd_bufpairs fuel rest ("", ""))

/-- Embedding of `change_passwd` (gpasswd.c lines 706-777): run the retry
loop; on failure `fail_exit (1)` leaves both records untouched (nothing is
ever written); on success hash the accepted password and store it in the
shadow record's password field when the shadow store is in use, else in the
primary record's. -/
def change_passwd (is_shadowgrp : Bool) (gr : GroupRecord) (sg : SgrpRecord)
    (attempts : List Attempt) (hash : String → String) :
    Except ProgExit (GroupRecord × SgrpRecord) :=
  match change_passwd_loop 3 attempts with
  | PwResult.accepted p =>
    let cp := hash p
    if is_shadowgrp then Except.ok (gr, { sg with sg_passwd := cp })
    else Except.ok ({ gr with gr_passwd := cp }, sg)
  | PwResult.nullInput => Except.error ⟨Routine.failExitR, 1, []⟩
  | PwResult.retriesExhausted =>
    Except.error ⟨Routine.failExitR, 1, [tryAgainLaterMsg]⟩

/-- The record mutations of the `-d` section of `main` (gpasswd.c lines
926-961): each member list is filtered only if `is_on_list` reports the user
present there (the shadow list only when the shadow store is in use);
returns the records after mutation and whether any removal occurred. -/
def main_delete (is_shadowgrp : Bool) (u : String) (gr : GroupRecord)
    (sg : SgrpRecord) : (GroupRecord × SgrpRecord) × Bool :=
  let removed1 := is_on_list gr.gr_mem u
  let gr2 := if removed1 then { gr with gr_mem := del_list gr.gr_mem u } else gr
  let removed2 := is_shadowgrp && is_on_list sg.sg_mem u
  let sg2 := if removed2 then { sg with sg_mem := del_list sg.sg_mem u } else sg
  ((gr2, sg2), removed1 || removed2)

/-- The `-d` section's outcome: when no removal occurred, the not-a-member
diagnostic and `fail_exit (1)`; otherwise the mutated records. -/
def main_delete_result (is_shadowgrp : Bool) (u : String) (gr : GroupRecord)
    (sg : SgrpRecord) : Except ProgExit (GroupRecord × SgrpRecord) :=
  match main_delete is_shadowgrp u gr sg with
  | (recs, true) => Except.ok recs
  | (_, false) => Except.error ⟨Routine.failExitR, 1, [notMemberMsg]⟩

/-- The operation-dispatch section of `main` (gpasswd.c lines 864-1032), in
source order: `-r` clears both password fields; `-R` restricts both; `-a`
adds to the primary member list and, with a shadow store, to the shadow
member list; `-d` removes as in `main_delete_result`; `-A` installs the new
admin list (falling through to `-M` when both are given); `-M` installs the
new member list in both records; otherwise the interactive password change
runs, after the tty check. -/
def dispatch_op (is_shadowgrp : Bool) (fl : Flags) (gr : GroupRecord)
    (sg : SgrpRecord) (tty : Bool) (attempts : List Attempt)
    (hash : String → String) : Except ProgExit (GroupRecord × SgrpRecord) :=
  if fl.rflg then
    Except.ok ({ gr with gr_passwd := "" }, { sg with sg_passwd := "" })
  else if fl.Rflg then
    Except.ok ({ gr with gr_passwd := "!" }, { sg with sg_passwd := "!" })
  else if fl.aflg then
    Except.ok
      ({ gr with gr_mem := add_list gr.gr_mem fl.user },
        if is_shadowgrp then { sg with sg_mem := add_list sg.sg_mem fl.user }
        else sg)
  else if fl.dflg then
    main_delete_result is_shadowgrp fl.user gr sg
  else if fl.Aflg then
    let sg2 : SgrpRecord := { sg with sg_adm := comma_to_list fl.admins }
    if fl.Mflg then
      Except.ok
        ({ gr with gr_mem := comma_to_list fl.members },
          { sg2 with sg_mem := comma_to_list fl.members })
    else
      Except.ok (gr, sg2)
  else if fl.Mflg then
    Except.ok
      ({ gr with gr_mem := comma_to_list fl.members },
        { sg with sg_mem := comma_to_list fl.members })
  else
    if !tty then Except.error ⟨Routine.failExitR, 1, [notATtyMsg]⟩
    else change_passwd is_shadowgrp gr sg attempts hash

/-- One whole gpasswd transaction on its data path, in the order of `main`:
process the options, check their exclusivity, load (and possibly synthesize)
the record pair, authorize via `check_perms` (denial is `failure ()`),
dispatch the selected operation, and commit the resulting records (the
shadow record only when the shadow store is in use).  The lock/unlock
bookkeeping of `open_files`, `fail_exit` and `close_files` is modelled
separately above. -/
def gpasswd_run (amroot is_shadowgrp fma : Bool) (db : List String)
    (myname : String) (grdb : List GroupRecord) (sgdb : List SgrpRecord)
    (group : String) (opts : List Opt) (tty : Bool)
    (attempts : List Attempt) (hash : String → String) :
    Except ProgExit (GroupRecord × Option SgrpRecord) :=
  match process_flags amroot is_shadowgrp db opts Flags.init with
  | Except.error e => Except.error e
  | Except.ok fl =>
    match check_flags fl with
    | Except.error e => Except.error e
    | Except.ok fl =>
      match get_group is_shadowgrp fma grdb sgdb group with
      | Except.error e => Except.error e
      | Except.ok (gr, sg) =>
        if check_perms is_shadowgrp fma amroot myname gr sg then
          match dispatch_op is_shadowgrp fl gr sg tty attempts hash with
          | Except.error e => Except.error e
          | Except.ok (gr2, sg2) =>
            Except.ok (gr2, if is_shadowgrp then some sg2 else none)
        else
          Except.error (failure_exit [])

end Gpasswd

namespace Gpasswd

/-- Boolean equality on strings agrees with decidable propositional
equality. -/
theorem string_decide_beq (a b : String) : decide (a = b) = (a == b) := by
  by_cases h : a = b <;> simp [h]

/-- C1: `check_perms` implements exactly the spec's authorization policy, in
its stated order: root always allowed; otherwise with a shadow store in use
allowed iff the caller is on the shadow record's admin list; otherwise under
the compile-time legacy flag allowed iff the caller equals the first entry of
the primary member list, and denied unconditionally without the flag. -/
theorem check_perms_policy (is_shadowgrp fma amroot : Bool) (myname : String)
    (gr : GroupRecord) (sg : SgrpRecord) :
    check_perms is_shadowgrp fma amroot myname gr sg
      = authorize_spec is_shadowgrp fma amroot myname gr sg := by
  cases is_shadowgrp <;> cases fma <;> cases amroot <;>
    simp [check_perms, authorize_spec] <;>
    cases h : gr.gr_mem <;> simp [h, string_decide_beq]

/-- C2: the lock protocol of `open_files`.  (1) If the primary (group) lock
is already held, the run exits fatally before any shadow lock is attempted
and with no unlock calls needed (no lock was taken).  (2) If the primary lock
succeeds and the shadow lock then fails, `fail_exit` releases the primary
lock (`gr_unlock` is called because `group_locked` was set) before the
process exits.  (3) No exit path of `open_files` leaves exactly one of the
two locks held. -/
theorem open_files_lock_protocol (is_shadowgrp : Bool) (env : OpenEnv) :
    (env.gr_lock_ok = false →
      open_files is_shadowgrp env
        = OFOut.exited ⟨1, false, false⟩ false (false, false))
    ∧ (env.gr_lock_ok = true → is_shadowgrp = true → env.sgr_lock_ok = false →
      open_files is_shadowgrp env
        = OFOut.exited ⟨1, true, false⟩ true (false, false))
    ∧ exit_locks_balanced (open_files is_shadowgrp env) = true := by
  obtain ⟨a, b, c, d⟩ := env
  cases is_shadowgrp <;> cases a <;> cases b <;> cases c <;> cases d <;> decide

/-- Witness for C2 at concrete environments: the primary-lock failure and
shadow-lock failure cases evaluated. -/
theorem open_files_lock_protocol_witness :
    (OpenEnv.gr_lock_ok ⟨false, true, true, true⟩ = false
      ∧ open_files true ⟨false, true, true, true⟩
          = OFOut.exited ⟨1, false, false⟩ false (false, false))
    ∧ (open_files true ⟨true, false, true, true⟩
        = OFOut.exited ⟨1, true, false⟩ true (false, false)) :=
  ⟨⟨rfl, (open_files_lock_protocol true ⟨false, true, true, true⟩).1 rfl⟩,
    (open_files_lock_protocol true ⟨true, false, true, true⟩).2.1 rfl rfl rfl⟩

/-- C3 counterexample: in the actual event order of `main` (with a shadow
store in use), the record is located and authorization runs strictly before
the group lock is taken, so the claim that the locks are acquired before the
stores are opened and the record loaded is false. -/
theorem load_before_lock_cex :
    ev_index (main_events true) Ev.locateGroup
        < ev_index (main_events true) Ev.lockGroup
      ∧ ev_index (main_events true) Ev.checkPerms
        < ev_index (main_events true) Ev.lockGroup
      ∧ ev_index (main_events true) Ev.openGroupRead
        < ev_index (main_events true) Ev.lockGroup := by
  decide

/-- Removing a name removes every occurrence: the name is never on the list
returned by `del_list`. -/
theorem is_on_list_del_list (l : List String) (u : String) :
    is_on_list (del_list l u) u = false := by
  have : u ∉ l.filter (fun x => x != u) := by
    intro hmem
    have := (List.mem_filter.mp hmem).2
    simp at this
  simpa [is_on_list, del_list] using this

/-- The retry loop only ever inspects its first `fuel` attempts. -/
theorem change_passwd_loop_take (fuel : Nat) (attempts : List Attempt) :
    change_passwd_loop fuel attempts
      = change_passwd_loop fuel (attempts.take fuel) := by
  induction fuel generalizing attempts with
  | zero => rfl
  | succ n ih =>
    cases attempts with
    | nil => rfl
    | cons a rest =>
      obtain ⟨c1, c2⟩ := a
      cases c1 with
      | none => rfl
      | some p1 =>
        cases c2 with
        | none => rfl
        | some p2 =>
          by_cases hp : p1 = p2 <;> simp [change_passwd_loop, hp, ih rest]

/-- Both password buffers are zeroed at the entry of every retry iteration
started with zeroed buffers, and at exhaustion. -/
theorem change_passwd_bufpairs_zeroed (fuel : Nat) (attempts : List Attempt) :
    ∀ p ∈ change_passwd_bufpairs fuel attempts ("", ""), p = ("", "") := by
  induction fuel generalizing attempts with
  | zero => intro p hp; simpa [change_passwd_bufpairs] using hp
  | succ n ih =>
    cases attempts with
    | nil => intro p hp; simpa [change_passwd_bufpairs] using hp
    | cons a rest =>
      obtain ⟨c1, c2⟩ := a
      intro p hp
      cases c1 with
      | none => simpa [change_passwd_bufpairs] using hp
      | some p1 =>
        cases c2 with
        | none => simpa [change_passwd_bufpairs] using hp
        | some p2 =>
          by_cases hpq : p1 = p2
          · simpa [change_passwd_bufpairs, hpq] using hp
          · simp only [change_passwd_bufpairs, hpq, if_neg hpq,
              List.mem_cons] at hp
            rcases hp with h | h
            · exact h
            · exact ih rest p h

/-- C3 amended: whether or not a shadow store is in use, `main` opens the
stores read-only, locates the record, authorizes, and mutates in memory
first, and acquires the exclusive lock(s) only afterwards, immediately
before the write-back (`update_group`). -/
theorem main_event_order (is_shadowgrp : Bool) :
    ev_index (main_events is_shadowgrp) Ev.locateGroup
        < ev_index (main_events is_shadowgrp) Ev.checkPerms
      ∧ ev_index (main_events is_shadowgrp) Ev.checkPerms
        < ev_index (main_events is_shadowgrp) Ev.mutate
      ∧ ev_index (main_events is_shadowgrp) Ev.mutate
        < ev_index (main_events is_shadowgrp) Ev.lockGroup
      ∧ ev_index (main_events is_shadowgrp) Ev.lockGroup
        < ev_index (main_events is_shadowgrp) Ev.updateGroup := by
  cases is_shadowgrp <;> decide

/-- C4: `-A` and `-M` are refused with the permission-denied fatal exit for
every non-root caller, inside `process_flags` itself — before the group is
even loaded and before `check_perms` runs — so the outcome is the same for
every identity store and every content of the group and shadow stores; in
particular being on the group's admin or member list cannot help. -/
theorem root_only_pre_checks (is_shadowgrp fma : Bool) (db : List String)
    (myname group s : String) (grdb : List GroupRecord)
    (sgdb : List SgrpRecord) (tty : Bool) (attempts : List Attempt)
    (hash : String → String) :
    gpasswd_run false is_shadowgrp fma db myname grdb sgdb group
        [Opt.A s] tty attempts hash = Except.error (failure_exit [])
    ∧ gpasswd_run false is_shadowgrp fma db myname grdb sgdb group
        [Opt.M s] tty attempts hash = Except.error (failure_exit []) := by
  constructor <;> rfl

/-- C5: the password prompt of `change_passwd` makes at most 3 attempts
(`RETRIES = 3`; the loop never inspects attempts beyond the first three);
every attempt ending in a mismatch zeroes both entered-password buffers
before the next attempt begins; and when all three attempts mismatch the
operation fails fatally with the try-again-later error, so no record is
produced and neither password field is modified. -/
theorem change_passwd_retry_policy (is_shadowgrp : Bool) (gr : GroupRecord)
    (sg : SgrpRecord) (hash : String → String) (a1 b1 a2 b2 a3 b3 : String)
    (rest : List Attempt) (h1 : a1 ≠ b1) (h2 : a2 ≠ b2) (h3 : a3 ≠ b3) :
    change_passwd is_shadowgrp gr sg
        ((some a1, some b1) :: (some a2, some b2) :: (some a3, some b3)
          :: rest) hash
      = Except.error ⟨Routine.failExitR, 1, [tryAgainLaterMsg]⟩
    ∧ (∀ attempts : List Attempt,
        change_passwd_loop 3 attempts
          = change_passwd_loop 3 (attempts.take 3))
    ∧ (∀ attempts : List Attempt,
        ∀ p ∈ change_passwd_bufpairs 3 attempts ("", ""), p = ("", "")) := by
  refine ⟨?_, fun attempts => change_passwd_loop_take 3 attempts,
    fun attempts => change_passwd_bufpairs_zeroed 3 attempts⟩
  simp [change_passwd, change_passwd_loop, h1, h2, h3]

/-- Witness for C5: three concrete mismatching attempts exhaust the retries
and fail with the try-again-later exit. -/
theorem change_passwd_retry_policy_witness :
    change_passwd false ⟨"staff", "", []⟩ default_sgrp
        [(some "aa", some "bb"), (some "cc", some "dd"),
          (some "ee", some "ff")] (fun s => s)
      = Except.error ⟨Routine.failExitR, 1, [tryAgainLaterMsg]⟩ :=
  (change_passwd_retry_policy false ⟨"staff", "", []⟩ default_sgrp
    (fun s => s) "aa" "bb" "cc" "dd" "ee" "ff" []
    (by decide) (by decide) (by decide)).1

/-- C6: when the shadow store is in use, the primary store holds the group
but the shadow store does not, `get_group` synthesizes a shadow record
instead of failing: its name is the group name, its password is the primary
record's password (and the primary record is left holding the shadow
marker), its member list is a copy of the primary member list, and its admin
list defaults to the first primary member under the compile-time legacy flag
and to empty otherwise. -/
theorem get_group_synthesizes (fma : Bool) (grdb : List GroupRecord)
    (sgdb : List SgrpRecord) (group : String) (gr0 : GroupRecord)
    (h1 : gr_locate grdb group = some gr0)
    (h2 : sgr_locate sgdb group = none) :
    get_group true fma grdb sgdb group
      = Except.ok
          ({ gr0 with gr_passwd := SHADOW_PASSWD_STRING },
            { sg_name := group
              sg_passwd := gr0.gr_passwd
              sg_mem := gr0.gr_mem
              sg_adm :=
                if fma then
                  match gr0.gr_mem with
                  | m :: _ => [m]
                  | [] => []
                else [] }) := by
  simp [get_group, h1, h2]

/-- Witness for C6: a concrete group present only in the primary store gets
a synthesized shadow record with the first member as default admin under the
legacy flag. -/
theorem get_group_synthesizes_witness :
    gr_locate [⟨"staff", "pw", ["alice", "bob"]⟩] "staff"
        = some ⟨"staff", "pw", ["alice", "bob"]⟩
    ∧ sgr_locate [] "staff" = none
    ∧ get_group true true [⟨"staff", "pw", ["alice", "bob"]⟩] [] "staff"
        = Except.ok
            (⟨"staff", "x", ["alice", "bob"]⟩,
              ⟨"staff", "pw", ["alice", "bob"], ["alice"]⟩) :=
  ⟨rfl, rfl,
    get_group_synthesizes true [⟨"staff", "pw", ["alice", "bob"]⟩] []
      "staff" ⟨"staff", "pw", ["alice", "bob"]⟩ rfl rfl⟩

/-- C7 counterexample: a run on a group absent from the primary store and a
run denied by authorization produce exits of the same class — both go
through `failure ()` (which prints the permission-denied message) with exit
status 1 — so the not-found outcome is not a class distinct from
permission-denied. -/
theorem not_found_class_cex :
    gpasswd_run true true false [] "alice" [] [] "staff" [] true []
        (fun s => s)
      = Except.error (failure_exit [unknownGroupMsg])
    ∧ gpasswd_run false true false [] "alice" [⟨"staff", "", []⟩]
        [⟨"staff", "", [], []⟩] "staff" [] true [] (fun s => s)
      = Except.error (failure_exit [])
    ∧ exitClass (failure_exit [unknownGroupMsg])
      = exitClass (failure_exit []) := by
  refine ⟨rfl, ?_, rfl⟩
  rfl

/-- C7 amended: when the named group is absent from the primary store the
transaction fails fatally, printing the unknown-group diagnostic — but it
does so through the common `failure ()` permission-denied routine, with the
same terminal routine and exit status (1) as an authorization denial, so at
the exit interface the not-found outcome is not a distinct class. -/
theorem not_found_exit (is_shadowgrp fma : Bool) (grdb : List GroupRecord)
    (sgdb : List SgrpRecord) (group : String)
    (h : gr_locate grdb group = none) :
    get_group is_shadowgrp fma grdb sgdb group
        = Except.error (failure_exit [unknownGroupMsg])
    ∧ exitClass (failure_exit [unknownGroupMsg])
      = exitClass (failure_exit []) := by
  exact ⟨by simp [get_group, h], rfl⟩

/-- Witness for C7's amended theorem at a concrete store. -/
theorem not_found_exit_witness :
    gr_locate [] "staff" = none
    ∧ get_group true false [] [] "staff"
        = Except.error (failure_exit [unknownGroupMsg]) :=
  ⟨rfl, (not_found_exit true false [] [] "staff" rfl).1⟩

/-- C8: the `-d` section of `main`: when the user is on neither the primary
member list nor (with a shadow store) the shadow member list, it reports no
removal, fails with the not-a-member error, and both records are unchanged;
when the user is present somewhere, the mutated records are committed and
every occurrence of the user is removed from the primary list and, with a
shadow store, from the shadow list. -/
theorem delete_member_policy (is_shadowgrp : Bool) (u : String)
    (gr : GroupRecord) (sg : SgrpRecord) :
    (is_on_list gr.gr_mem u = false →
      (is_shadowgrp && is_on_list sg.sg_mem u) = false →
      main_delete_result is_shadowgrp u gr sg
          = Except.error ⟨Routine.failExitR, 1, [notMemberMsg]⟩
        ∧ (main_delete is_shadowgrp u gr sg).1 = (gr, sg))
    ∧ ((is_on_list gr.gr_mem u
          || (is_shadowgrp && is_on_list sg.sg_mem u)) = true →
      main_delete_result is_shadowgrp u gr sg
          = Except.ok (main_delete is_shadowgrp u gr sg).1
        ∧ is_on_list (main_delete is_shadowgrp u gr sg).1.1.gr_mem u = false
        ∧ (is_shadowgrp = true →
            is_on_list (main_delete is_shadowgrp u gr sg).1.2.sg_mem u
              = false)) := by
  constructor
  · intro hg hs
    simp [main_delete, main_delete_result, hg, hs]
  · intro h
    cases hg : is_on_list gr.gr_mem u <;>
      cases hs : is_shadowgrp && is_on_list sg.sg_mem u <;>
      simp [hg, hs] at h ⊢ <;>
      simp [main_delete, main_delete_result, hg, hs, is_on_list_del_list] <;>
      intro hsh <;>
      simp [hsh] at hs <;>
      simp [hs]

/-- Witness for C8 at concrete records: an absent user yields the
not-a-member failure with untouched records; a present user is removed. -/
theorem delete_member_policy_witness :
    (main_delete_result true "carol" ⟨"staff", "", ["alice"]⟩
        ⟨"staff", "", ["bob"], []⟩
      = Except.error ⟨Routine.failExitR, 1, [notMemberMsg]⟩)
    ∧ main_delete_result true "alice" ⟨"staff", "", ["alice"]⟩
        ⟨"staff", "", ["alice", "bob"], []⟩
      = Except.ok (⟨"staff", "", []⟩, ⟨"staff", "", ["bob"], []⟩) := by
  constructor
  · exact ((delete_member_policy true "carol" ⟨"staff", "", ["alice"]⟩
      ⟨"staff", "", ["bob"], []⟩).1 (by decide) (by decide)).1
  · have h := ((delete_member_policy true "alice" ⟨"staff", "", ["alice"]⟩
      ⟨"staff", "", ["alice", "bob"], []⟩).2 (by decide)).1
    exact h.trans rfl

/-- C9: validity of a comma-separated user list depends only on the first
31 characters of each scanned token: `is_valid_user_list` equals the check
that every token, truncated to its first 31 characters, exists in the
identity store.  Hence over-length tokens are silently truncated before the
existence lookup and are never rejected for their length alone. -/
theorem user_list_truncation (db : List String) (users : String) :
    is_valid_user_list db users
      = (ctokens users.data).all
          (fun t => db.contains (String.mk (t.take 31))) := by
  have go : ∀ cs acc, is_valid_user_list_go db cs acc
      = (ctokens_go cs acc).all
          (fun t => db.contains (String.mk (t.take 31))) := by
    intro cs
    induction cs with
    | nil => intro acc; simp [is_valid_user_list_go, ctokens_go]
    | cons c rest ih =>
      intro acc
      by_cases hc : c = ','
      · subst hc
        cases rest with
        | nil => simp [is_valid_user_list_go, ctokens_go]
        | cons r rs =>
          have e1 : is_valid_user_list_go db (',' :: r :: rs) acc
              = (db.contains (String.mk (acc.reverse.take 31))
                  && is_valid_user_list_go db (r :: rs) []) := rfl
          have e2 : ctokens_go (',' :: r :: rs) acc
              = acc.reverse :: ctokens_go (r :: rs) [] := rfl
          rw [e1, e2, List.all_cons, ih []]
      · have e1 : is_valid_user_list_go db (c :: rest) acc
            = is_valid_user_list_go db rest (c :: acc) := by
          cases rest <;> simp [is_valid_user_list_go, hc]
        have e2 : ctokens_go (c :: rest) acc
            = ctokens_go rest (c :: acc) := by
          cases rest <;> simp [ctokens_go, hc]
        rw [e1, e2, ih (c :: acc)]
  cases h : users.data with
  | nil => simp [is_valid_user_list, ctokens, h]
  | cons c rest => simp [is_valid_user_list, ctokens, h, go]

/-- C10: unlike `-a`, which fails fatally inside `process_flags` when the
named user is missing from the identity store, `-d` never consults the
identity store: a whole `-d` run is identical for any two identity stores,
and the `-d` section succeeds exactly when the name is on a member list,
failing only with the not-a-member error otherwise — even for a name no
user has. -/
theorem delete_skips_identity_lookup (is_shadowgrp fma : Bool)
    (db db2 : List String) (myname group u : String)
    (grdb : List GroupRecord) (sgdb : List SgrpRecord) (tty : Bool)
    (attempts : List Attempt) (hash : String → String) :
    (db.contains u = false →
      gpasswd_run true is_shadowgrp fma db myname grdb sgdb group
          [Opt.a u] tty attempts hash
        = Except.error ⟨Routine.failExitR, 1, [userNotExistMsg]⟩)
    ∧ gpasswd_run true is_shadowgrp fma db myname grdb sgdb group
          [Opt.d u] tty attempts hash
        = gpasswd_run true is_shadowgrp fma db2 myname grdb sgdb group
          [Opt.d u] tty attempts hash
    ∧ (∀ (gr : GroupRecord) (sg : SgrpRecord),
        ((is_on_list gr.gr_mem u
            || (is_shadowgrp && is_on_list sg.sg_mem u)) = true →
          main_delete_result is_shadowgrp u gr sg
            = Except.ok (main_delete is_shadowgrp u gr sg).1)
        ∧ ((is_on_list gr.gr_mem u
            || (is_shadowgrp && is_on_list sg.sg_mem u)) = false →
          main_delete_result is_shadowgrp u gr sg
            = Except.error ⟨Routine.failExitR, 1, [notMemberMsg]⟩)) := by
  refine ⟨?_, rfl, ?_⟩
  · intro h
    have h' : u ∉ db := by simpa using h
    simp [gpasswd_run, process_flags, process_one, h']
  · intro gr sg
    constructor
    · intro h
      cases hg : is_on_list gr.gr_mem u <;>
        cases hs : is_shadowgrp && is_on_list sg.sg_mem u <;>
        simp [hg, hs] at h ⊢ <;>
        simp [main_delete, main_delete_result, hg, hs]
    · intro h
      cases hg : is_on_list gr.gr_mem u <;>
        cases hs : is_shadowgrp && is_on_list sg.sg_mem u <;>
        simp [hg, hs] at h ⊢ <;>
        simp [main_delete, main_delete_result, hg, hs]

/-- Witness for C10: with an identity store not containing the user, `-a`
fails fatally while the db-independence of `-d` holds at the same input. -/
theorem delete_skips_identity_lookup_witness :
    ([] : List String).contains "carol" = false
    ∧ gpasswd_run true true false [] "alice"
        [⟨"staff", "", ["carol"]⟩] [⟨"staff", "", ["carol"], []⟩] "staff"
        [Opt.a "carol"] true [] (fun s => s)
      = Except.error ⟨Routine.failExitR, 1, [userNotExistMsg]⟩ :=
  ⟨rfl,
    (delete_skips_identity_lookup true false [] ["x"] "alice" "staff"
      "carol" [⟨"staff", "", ["carol"]⟩] [⟨"staff", "", ["carol"], []⟩]
      true [] (fun s => s)).1 rfl⟩

end Gpasswd
